import Mathlib

/-!
Shallow embedding of the GDD-generator repository (template_handler.py,
document_learner.py, document_creator.py) and proofs about the spec's claims.

Python `dict[str, str]` values are embedded as association lists without
duplicate keys, with insertion-order update semantics (`SMap`); Python `str`
is embedded as Lean `String` (both `len` and `String.length` count code
points), except in the text-splitter module where `List Char` is used for
tractable computation.  External effects (the OpenAI completion call, the
vector-store library, file reads, the Google Docs service) are inputs to the
embedded functions: each parameter corresponds to one external call site in
the source and carries that call's outcome.
-/

set_option maxRecDepth 10000

namespace GDD

/-- Association-list embedding of a Python `dict[str, str]`. -/
abbrev SMap := List (String × String)

/-- Python `d[k]` / `d.get(k)`: value of the first (unique) binding of `k`. -/
def sget? : SMap → String → Option String
  | [], _ => none
  | (k', v') :: rest, k => if k' = k then some v' else sget? rest k

/-- Python `d[k] = v`: replace in place if the key is present (keeping its
position), otherwise append at the end (dict insertion order). -/
def sset : SMap → String → String → SMap
  | [], k, v => [(k, v)]
  | (k', v') :: rest, k, v =>
    if k' = k then (k', v) :: rest else (k', v') :: sset rest k v

/-- Python `list(d.keys())`. -/
def skeys (d : SMap) : List String := d.map Prod.fst

/-!
## template_handler.py — `TemplateHandler`

`_default_template_data` is the Template Registry: 30 fixed keys, each with a
non-empty Korean placeholder.  `_basic_parsing` runs three regex searches on
the user input and, for each match, overwrites one key with the stripped
second capture group; the embedded function takes those three optional
capture-group results as inputs (one per `re.search` call site).
`_generate_template_data_with_ai` takes the outcome of the OpenAI completion
call: `.error` for a request/parse failure (the `except` branch), `.ok data`
for a successfully parsed JSON object.
-/

/-- Embeds `TemplateHandler._default_template_data` (template_handler.py:115-153). -/
def default_template_data : SMap :=
  [("title", "소프트웨어 구현 명세서"),
   ("summary", "이 문서는 소프트웨어의 주요 기능과 구현 방법을 설명합니다."),
   ("functional_requirements", "- 주요 기능 1\n- 주요 기능 2\n- 주요 기능 3"),
   ("non_functional_requirements", "- 성능 요구사항\n- 보안 요구사항\n- 사용성 요구사항"),
   ("constraints_assumptions", "- 개발 환경 제약사항\n- 주요 가정사항"),
   ("architecture_overview", "시스템 아키텍처에 대한 설명과 주요 구성요소간의 관계를 설명합니다."),
   ("system_components", "- 구성요소 1: 역할 및 책임\n- 구성요소 2: 역할 및 책임"),
   ("development_environment", "- 개발 언어 및 프레임워크\n- 개발 도구"),
   ("backend_technology", "백엔드에 사용되는 주요 기술과 프레임워크를 설명합니다."),
   ("frontend_technology", "프론트엔드에 사용되는 주요 기술과 프레임워크를 설명합니다."),
   ("infrastructure_deployment", "인프라 구조와 배포 방법을 설명합니다."),
   ("entity_relationship_diagram", "주요 엔티티 간의 관계를 설명합니다."),
   ("database_schema", "데이터베이스 스키마와 테이블 구조를 설명합니다."),
   ("data_flow", "시스템 내 데이터 흐름을 설명합니다."),
   ("api_overview", "API 설계 원칙과 인증 메커니즘을 설명합니다."),
   ("endpoint_details", "주요 API 엔드포인트와 메서드를 설명합니다."),
   ("backend_components", "백엔드 주요 모듈과 클래스 설계를 설명합니다."),
   ("frontend_components", "프론트엔드 컴포넌트 계층 구조와 상태 관리 방법을 설명합니다."),
   ("core_algorithms_logic", "핵심 알고리즘과 비즈니스 로직을 설명합니다."),
   ("security_threat_analysis", "주요 보안 위협과 리스크를 분석합니다."),
   ("security_controls", "인증 및 권한 부여 메커니즘, 데이터 보호 전략을 설명합니다."),
   ("test_approach", "테스트 수준 및 유형, 테스트 환경, 자동화 전략을 설명합니다."),
   ("test_cases", "주요 테스트 시나리오와 데이터 요구사항을 설명합니다."),
   ("development_phases", "주요 개발 단계와 마일스톤을 설명합니다."),
   ("development_standards", "설계 원칙 및 패턴, 명명 규칙, 구조화 방법론을 설명합니다."),
   ("documentation_requirements", "코드 주석 요구사항, 기술 문서 작성 지침을 설명합니다."),
   ("glossary", "주요 기술 및 비즈니스 용어 정의를 설명합니다."),
   ("reference_documents", "관련 문서 및 리소스 목록을 포함합니다."),
   ("requirements_implementation_verification", "모든 기능 요구사항 구현 검증, 비기능 요구사항 충족 검증, 미해결 이슈 및 제약사항 목록을 설명합니다."),
   ("implementation_status_conclusion", "구현 완료 상태: [COMPLETE / CONTINUE]\n\n완료되지 않은 항목 목록 (해당되는 경우)\n\n다음 단계 권장사항 (해당되는 경우)")]

/-- The fixed Section Mapping key set, in registry order. -/
def sectionKeys : List String := skeys default_template_data

/-- Python `str.strip()` on leading/trailing whitespace, written over the
character list so that it evaluates in the kernel (`String.trim` is defined
by well-founded recursion and does not reduce definitionally). -/
def stripStr (s : String) : String :=
  String.mk
    (((s.data.dropWhile Char.isWhitespace).reverse.dropWhile
        Char.isWhitespace).reverse)

/-- Embeds `TemplateHandler._basic_parsing` (template_handler.py:85-113): start from
the registry defaults and overwrite `title` / `summary` /
`functional_requirements` with the stripped second capture group of the
corresponding `re.search`, when that search matched.  `titleMatch`,
`summaryMatch`, `funcReqMatch` are the `group(2)` values of the three
searches (`none` when the search found no match). -/
def basic_parsing (titleMatch summaryMatch funcReqMatch : Option String) : SMap :=
  let data := default_template_data
  let data := match titleMatch with
    | some t => sset data "title" (stripStr t)
    | none => data
  let data := match summaryMatch with
    | some t => sset data "summary" (stripStr t)
    | none => data
  match funcReqMatch with
  | some t => sset data "functional_requirements" (stripStr t)
  | none => data

/-- One iteration of the merge loop of
`TemplateHandler._generate_template_data_with_ai` (template_handler.py:75-77):
`if key not in data or not data[key]: data[key] = default_data[key]`.
A string value is falsy exactly when it is empty. -/
def mergeStep (d : SMap) (kv : String × String) : SMap :=
  match sget? d kv.1 with
  | none => sset d kv.1 kv.2
  | some v => if v = "" then sset d kv.1 kv.2 else d

/-- The merge loop of `TemplateHandler._generate_template_data_with_ai`
(template_handler.py:74-77): `for key in default_data: ...`. -/
def mergeWithDefaults (data : SMap) : SMap :=
  default_template_data.foldl mergeStep data

/-- Embeds `TemplateHandler._generate_template_data_with_ai`
(template_handler.py:44-83).  `aiResult` is the outcome of the completion
call plus `json.loads`: `.ok data` when the model returned a JSON object,
`.error` when the request or the parse raised (the `except` branch returns
the registry defaults). -/
def generate_template_data_with_ai (aiResult : Except Unit SMap) : SMap :=
  match aiResult with
  | .error _ => default_template_data
  | .ok data => mergeWithDefaults data

/-- Embeds `TemplateHandler.parse_user_input` (template_handler.py:24-42): with an
API key configured, delegate to the AI path (which handles its own errors by
returning the defaults); otherwise run the rule-based parser.  The outer
`except` is unreachable in the model because both callees are total. -/
def parse_user_input (apiKey : Option String) (aiResult : Except Unit SMap)
    (titleMatch summaryMatch funcReqMatch : Option String) : SMap :=
  match apiKey with
  | some _ => generate_template_data_with_ai aiResult
  | none => basic_parsing titleMatch summaryMatch funcReqMatch

/-- A key is bound to a non-empty value. -/
def NonemptyAt (d : SMap) (k : String) : Prop :=
  ∃ v, sget? d k = some v ∧ v ≠ ""

/-!
## document_learner.py — text splitting (`DocumentLearner.process_document`)

`process_document` delegates chunking to langchain's
`RecursiveCharacterTextSplitter(chunk_size=1000, chunk_overlap=200,
length_function=len)`.  The splitter is part of the program's behaviour, so
it is embedded here faithfully: `split_text` picks the first separator of
`["\n\n", "\n", " ", ""]` that is empty or occurs in the text, splits on it
(`list(text)` for the empty separator), recurses on any piece not shorter
than `chunk_size`, and merges the remaining pieces with `_merge_splits`,
whose sliding accumulator keeps at most `chunk_overlap` characters when a
chunk is emitted.  Python strings are `List Char` in this module so that the
kernel can evaluate the splitter on concrete 2200-character inputs.
-/

/-- Python strings inside the splitter module. -/
abbrev PyStr := List Char

/-- Python `str.strip()`. -/
def pyStrip (s : PyStr) : PyStr :=
  ((s.dropWhile Char.isWhitespace).reverse.dropWhile Char.isWhitespace).reverse

/-- Embeds `TextSplitter._join_docs`: join with the separator, strip, and
drop the chunk when the result is empty. -/
def joinDocs (docs : List PyStr) (sep : PyStr) : Option PyStr :=
  let text := pyStrip (List.intercalate sep docs)
  if text = [] then none else some text

/-- State of the `_merge_splits` loop: emitted chunks, the current window
(`current_doc`), and its tracked length (`total`). -/
structure MergeState where
  docs : List PyStr
  currentDoc : List PyStr
  total : Nat

/-- Embeds the inner `while` of `_merge_splits`: keep popping the front of
`current_doc` while `total > chunk_overlap` or the incoming split of length
`dLen` would still overflow `chunk_size`.  Python would fault on an empty
`current_doc`; that case is unreachable because `total` is then `0`. -/
def popOverlap (cs co sepLen dLen : Nat) :
    List PyStr → Nat → List PyStr × Nat
  | [], total => ([], total)
  | c :: rest, total =>
    if total > co ∨ (total + dLen + sepLen > cs ∧ total > 0) then
      popOverlap cs co sepLen dLen rest
        (total - (c.length + if rest.length ≥ 1 then sepLen else 0))
    else (c :: rest, total)

/-- One iteration of the `for d in splits` loop of `_merge_splits`. -/
def mergeOne (cs co : Nat) (sep : PyStr) (st : MergeState) (d : PyStr) :
    MergeState :=
  let dLen := d.length
  let sepLen := sep.length
  let st :=
    if st.total + dLen + (if st.currentDoc.length > 0 then sepLen else 0)
        > cs then
      if st.currentDoc.length > 0 then
        let newDocs :=
          match joinDocs st.currentDoc sep with
          | some doc => st.docs ++ [doc]
          | none => st.docs
        let popped := popOverlap cs co sepLen dLen st.currentDoc st.total
        { docs := newDocs, currentDoc := popped.1, total := popped.2 }
      else st
    else st
  { st with
    currentDoc := st.currentDoc ++ [d],
    total := st.total + dLen
      + (if st.currentDoc.length ≥ 1 then sepLen else 0) }

/-- Embeds `TextSplitter._merge_splits`. -/
def mergeSplits (cs co : Nat) (splits : List PyStr) (sep : PyStr) :
    List PyStr :=
  let st := splits.foldl (mergeOne cs co sep) ⟨[], [], 0⟩
  match joinDocs st.currentDoc sep with
  | some doc => st.docs ++ [doc]
  | none => st.docs

/-- The splitter's default separators. -/
def defaultSeparators : List PyStr := [['\n', '\n'], ['\n'], [' '], []]

/-- Leftmost index at which `sep` occurs in `text`. -/
def findSubIdx? (sep text : PyStr) : Option Nat :=
  (List.range (text.length + 1)).find? (fun i => sep.isPrefixOf (text.drop i))

/-- Python `sep in text` (substring containment). -/
def containsSub (text sep : PyStr) : Bool :=
  (findSubIdx? sep text).isSome

/-- Separator selection loop of `RecursiveCharacterTextSplitter.split_text`:
the first separator that is empty or occurs in the text (default: the last
one). -/
def chooseSeparator (seps : List PyStr) (text : PyStr) : PyStr :=
  match seps.find? (fun s => s.isEmpty || containsSub text s) with
  | some s => s
  | none => (seps.getLast?).getD []

/-- Python `str.split(sep)` for a non-empty separator, with fuel (each
recursion removes at least one separator occurrence, so `text.length + 1`
steps always suffice). -/
def splitOnSepFuel (sep : PyStr) : Nat → PyStr → List PyStr
  | 0, text => [text]
  | fuel + 1, text =>
    match findSubIdx? sep text with
    | none => [text]
    | some i => text.take i :: splitOnSepFuel sep fuel (text.drop (i + sep.length))

/-- Python `text.split(separator) if separator else list(text)`. -/
def pySplit (text sep : PyStr) : List PyStr :=
  if sep = [] then text.map (fun c => [c])
  else splitOnSepFuel sep (text.length + 1) text

/-- One iteration of the `for s in splits` loop of
`RecursiveCharacterTextSplitter.split_text`: accumulate splits shorter than
`chunk_size` into the pending good-splits list, flush and recurse (via
`recur`) on any longer split. -/
def splitStep (cs co : Nat) (sep : PyStr) (recur : PyStr → List PyStr)
    (acc : List PyStr × List PyStr) (s : PyStr) : List PyStr × List PyStr :=
  if s.length < cs then (acc.1, acc.2 ++ [s])
  else
    let fc :=
      if acc.2 ≠ [] then acc.1 ++ mergeSplits cs co acc.2 sep else acc.1
    (fc ++ recur s, [])

/-- Embeds `RecursiveCharacterTextSplitter.split_text` with fuel.  Recursive
calls only happen on split pieces of length at least `chunk_size`, which are
strictly shorter than the text they were split from, so `text.length + 1`
fuel always suffices. -/
def splitTextFuel (cs co : Nat) : Nat → PyStr → List PyStr
  | 0, _ => []
  | fuel + 1, text =>
    let sep := chooseSeparator defaultSeparators text
    let splits := pySplit text sep
    let res :=
      splits.foldl (splitStep cs co sep (fun s => splitTextFuel cs co fuel s))
        ([], [])
    if res.2 ≠ [] then res.1 ++ mergeSplits cs co res.2 sep else res.1

/-- The splitter instance built in `DocumentLearner.process_document`
(document_learner.py:103-107): `chunk_size=1000, chunk_overlap=200,
length_function=len`. -/
def split_text (text : PyStr) : List PyStr :=
  splitTextFuel 1000 200 (text.length + 1) text

/-- Embeds langchain's `Document`: page content plus a metadata dict. -/
structure PyDoc where
  page_content : PyStr
  metadata : SMap
deriving DecidableEq

/-- Embeds `TextSplitter.split_documents`: split each document's text and
give every chunk a copy of its source document's metadata. -/
def split_documents (docs : List PyDoc) : List PyDoc :=
  (docs.map (fun d =>
    (split_text d.page_content).map (fun c => PyDoc.mk c d.metadata))).flatten

/-- Python `dict.update`: `a.update(b)` writes every binding of `b` into
`a`, overwriting existing keys. -/
def pyUpdate (a b : SMap) : SMap :=
  b.foldl (fun acc kv => sset acc kv.1 kv.2) a

/-- Errors `DocumentLearner.process_document` can raise: `FileNotFoundError`
for a missing path, `ValueError` when even the last-resort read fails.
No other exception escapes (every other failure is caught in-function). -/
inductive PDError where
  | fileNotFound
  | valueError
deriving DecidableEq

/-- Dummy document content built by the last-resort branch
(document_learner.py:179-183). -/
def dummyFailureText (baseName : PyStr) : PyStr :=
  "파일 이름: ".toList ++ baseName ++ "\n처리 실패: 파일 형식이 지원되지 않습니다.".toList

/-- Embeds `DocumentLearner.process_document` (document_learner.py:77-185).
External reads are inputs, one per call site: `primaryRead` is the
utf-8-with-ignored-errors read of the whole file (line 94), `loaderResult`
is `loader.load()` for the `.txt`/`.pdf` loader path, `pypdfOk` is whether
`PyPDFLoader` imports and constructs, `binaryRead` is the `str(f.read())` of
the binary fallback, and `lastResortRead` the one in the final `except`
block.  `fileExt` is the lowercased extension from `os.path.splitext`. -/
def process_document
    (fileExists : Bool) (fileExt : String) (fileBaseName : PyStr)
    (primaryRead : Except Unit PyStr)
    (loaderResult : Except Unit (List PyDoc))
    (pypdfOk : Bool)
    (binaryRead : Except Unit PyStr)
    (lastResortRead : Except Unit PyStr)
    (metadata : Option SMap) : Except PDError (List PyDoc) :=
  if !fileExists then .error .fileNotFound
  else
    match primaryRead with
    | .ok text => .ok (split_documents [⟨text, metadata.getD []⟩])
    | .error _ =>
      let loaderPath : Except Unit (List PyDoc) :=
        loaderResult.map fun docs =>
          let docs :=
            if (metadata.getD []).isEmpty then docs
            else docs.map fun d =>
              { d with metadata := pyUpdate d.metadata (metadata.getD []) }
          split_documents docs
      let binaryPath : Except Unit (List PyDoc) :=
        binaryRead.map fun text => split_documents [⟨text, metadata.getD []⟩]
      let attempt : Except Unit (List PyDoc) :=
        if fileExt = ".txt" then loaderPath
        else if fileExt = ".pdf" then
          (if pypdfOk then loaderPath else binaryPath)
        else binaryPath
      match attempt with
      | .ok docs => .ok docs
      | .error _ =>
        match lastResortRead with
        | .ok _ => .ok [⟨dummyFailureText fileBaseName, metadata.getD []⟩]
        | .error _ => .error .valueError

instance {ε α : Type} [DecidableEq ε] [DecidableEq α] :
    DecidableEq (Except ε α) := fun a b =>
  match a, b with
  | .ok x, .ok y =>
    if h : x = y then isTrue (by rw [h])
    else isFalse (fun hc => h (Except.ok.inj hc))
  | .error x, .error y =>
    if h : x = y then isTrue (by rw [h])
    else isFalse (fun hc => h (Except.error.inj hc))
  | .ok _, .error _ => isFalse (fun hc => Except.noConfusion hc)
  | .error _, .ok _ => isFalse (fun hc => Except.noConfusion hc)

/-!
## document_learner.py — `DocumentLearner` state machine

The learner's mutable attributes are a state record; the persisted Chroma
directory is `persistDir` (`none` when the directory does not exist, `some
docs` for an index holding `docs`).  External outcomes are inputs:
`importOk` for the langchain imports, `loadOk` for loading the persisted
Chroma store, `simOrder` for the store's similarity ranking (a function
producing the store's documents in nearest-first order), `searchFails` for
an exception inside `similarity_search`, `rmtreeOk` for `shutil.rmtree`,
and `llmResult` for the OpenAI completion plus `json.loads`.
-/

/-- Mutable state of a `DocumentLearner` (document_learner.py:27-30) plus
the on-disk persist directory it owns. -/
structure LearnerState where
  apiKey : Option String
  embedding : Bool
  vectorstore : Option (List PyDoc)
  persistDir : Option (List PyDoc)

/-- Embeds `DocumentLearner._initialize_if_needed`
(document_learner.py:50-75): only acts when no embedding client exists and
an API key is configured; on successful import it constructs the embedding
client and, when the persist directory exists, tries to load the Chroma
store (clearing `vectorstore` if that raises); an `ImportError` clears
both. -/
def initialize_if_needed (s : LearnerState) (importOk loadOk : Bool) :
    LearnerState :=
  if !s.embedding && s.apiKey.isSome then
    if importOk then
      let s := { s with embedding := true }
      match s.persistDir with
      | some docs =>
        if loadOk then { s with vectorstore := some docs }
        else { s with vectorstore := none }
      | none => s
    else { s with embedding := false, vectorstore := none }
  else s

/-- Embeds `DocumentLearner.search_similar_documents`
(document_learner.py:276-299): initialize lazily, return `[]` when there is
no vector store, otherwise `similarity_search(query, k=top_k)` — modelled as
the store's documents in similarity order, truncated to `top_k` — with any
exception caught and turned into `[]`. -/
def search_similar_documents (s : LearnerState) (query : String)
    (top_k : Nat) (importOk loadOk : Bool)
    (simOrder : List PyDoc → String → List PyDoc) (searchFails : Bool) :
    List PyDoc × LearnerState :=
  let s := initialize_if_needed s importOk loadOk
  match s.vectorstore with
  | none => ([], s)
  | some docs =>
    if searchFails then ([], s)
    else ((simOrder docs query).take top_k, s)

/-- Embeds `DocumentLearner.clear_vectorstore` (document_learner.py:334-350):
remove the persist directory if it exists, reset the in-memory store, return
success; if `rmtree` raises, return failure with the state unchanged. -/
def clear_vectorstore (s : LearnerState) (rmtreeOk : Bool) :
    Bool × LearnerState :=
  match s.persistDir with
  | some _ =>
    if rmtreeOk then (true, { s with persistDir := none, vectorstore := none })
    else (false, s)
  | none => (true, { s with vectorstore := none })

/-- The fixed system instruction of the completion calls
(template_handler.py:64, document_learner.py:321). -/
def systemInstruction : String :=
  "당신은 소프트웨어 구현 명세서 작성을 도와주는 전문가입니다. 사용자 입력을 분석하여 소프트웨어 구현 명세서의 각 섹션별 내용을 JSON 형식으로 구성해주세요."

/-- External calls issued during `generate_template_from_query`: vector-store
searches (query and k) and completion requests (system instruction and user
content). -/
structure GenTrace where
  searches : List (String × Nat)
  llmCalls : List (String × String)
deriving DecidableEq

/-- Embeds `DocumentLearner.generate_template_from_query`
(document_learner.py:301-332) together with the trace of external calls it
makes.  The simplified implementation returns `{}` without an API key and
otherwise issues exactly one completion request on the query alone — it
never consults the vector store.  `llmResult` is the completion call plus
`json.loads`: `.error` when either raises (the `except` branch returns
`{}`). -/
def generate_template_from_query (s : LearnerState) (query : String)
    (llmResult : Except Unit SMap) : SMap × GenTrace :=
  if s.apiKey.isNone then ([], ⟨[], []⟩)
  else
    match llmResult with
    | .ok data => (data, ⟨[], [(systemInstruction, "사용자 입력: " ++ query)]⟩)
    | .error _ => ([], ⟨[], [(systemInstruction, "사용자 입력: " ++ query)]⟩)

/-!
## document_creator.py — `DocumentCreator`

`_format_template_to_doc` turns a Section Mapping into an ordered list of
Google Docs batch-update requests: one `insertText` for the title block, one
per section in the fixed order, then a single `updateParagraphStyle` for the
title.  `create_document_from_template` authenticates, creates an empty
document, renders and submits the body, and returns an `{id, url}` handle.
External outcomes are inputs: `serviceReady`/`authOk` for the Google
service, `createResult` for `documents().create` (the created id or `None`),
`updateOk` for `batchUpdate`.
-/

/-- A Google Docs batch-update request as built by
`_format_template_to_doc`: either an `insertText` at a 1-based character
index or an `updateParagraphStyle` over an index range. -/
inductive DocRequest where
  | insertText (index : Nat) (text : String)
  | updateParagraphStyle (startIndex endIndex : Nat)
      (namedStyleType alignment fields : String)
deriving DecidableEq

/-- The fixed section order of `_format_template_to_doc`
(document_creator.py:224-254): key and heading for each of the 29 sections
after the title. -/
def sectionsList : List (String × String) :=
  [("summary", "## 1. 요약"),
   ("functional_requirements", "### 2.1 기능 요구사항"),
   ("non_functional_requirements", "### 2.2 비기능 요구사항"),
   ("constraints_assumptions", "### 2.3 제약사항 및 가정"),
   ("architecture_overview", "### 3.1 아키텍처 개요"),
   ("system_components", "### 3.2 시스템 구성요소"),
   ("development_environment", "### 4.1 개발 환경"),
   ("backend_technology", "### 4.2 백엔드 기술"),
   ("frontend_technology", "### 4.3 프론트엔드 기술"),
   ("infrastructure_deployment", "### 4.4 인프라 및 배포"),
   ("entity_relationship_diagram", "### 5.1 엔티티 관계 다이어그램"),
   ("database_schema", "### 5.2 데이터베이스 스키마"),
   ("data_flow", "### 5.3 데이터 흐름"),
   ("api_overview", "### 6.1 API 개요"),
   ("endpoint_details", "### 6.2 엔드포인트 상세"),
   ("backend_components", "### 7.1 백엔드 컴포넌트"),
   ("frontend_components", "### 7.2 프론트엔드 컴포넌트"),
   ("core_algorithms_logic", "### 7.3 핵심 알고리즘 및 로직"),
   ("security_threat_analysis", "### 8.1 보안 위협 분석"),
   ("security_controls", "### 8.2 보안 통제"),
   ("test_approach", "### 9.1 테스트 접근법"),
   ("test_cases", "### 9.2 테스트 케이스"),
   ("development_phases", "### 10.1 개발 단계"),
   ("development_standards", "### 11.1 개발 표준"),
   ("documentation_requirements", "### 11.2 문서화 요구사항"),
   ("glossary", "### 12.1 용어 설명"),
   ("reference_documents", "### 12.2 참조 문서"),
   ("requirements_implementation_verification", "### 13.1 요구사항 구현 검증"),
   ("implementation_status_conclusion", "### 13.2 구현 상태 결론")]

/-- The document title: `data.get('title', '소프트웨어 구현 명세서')`
(document_creator.py:214). -/
def docTitle (data : SMap) : String :=
  (sget? data "title").getD "소프트웨어 구현 명세서"

/-- The text of the title block: `f"# {title}\n\n"`. -/
def titleBlockText (data : SMap) : String :=
  "# " ++ docTitle data ++ "\n\n"

/-- The text of one section block: `f"{header}\n{content}\n\n"` with
`content = data.get(key, '')` (document_creator.py:257-258). -/
def sectionBlockText (data : SMap) (kv : String × String) : String :=
  kv.2 ++ "\n" ++ (sget? data kv.1).getD "" ++ "\n\n"

/-- The one `updateParagraphStyle` request built at
document_creator.py:268-280: range `1 .. len(f"# {title}") + 1`, style
`TITLE` centered. -/
def titleStyleRequest (data : SMap) : DocRequest :=
  .updateParagraphStyle 1 (("# " ++ docTitle data).length + 1)
    "TITLE" "CENTER" "namedStyleType,alignment"

/-- Embeds `DocumentCreator._format_template_to_doc`
(document_creator.py:200-282): append the title insert at index 1, then one
insert per section at the running `current_index`, then the title style
request. -/
def format_template_to_doc (data : SMap) : List DocRequest :=
  let reqs := [DocRequest.insertText 1 (titleBlockText data)]
  let currentIndex := 1 + (titleBlockText data).length
  let folded := sectionsList.foldl
    (fun (acc : List DocRequest × Nat) kv =>
      let sectionText := sectionBlockText data kv
      (acc.1 ++ [DocRequest.insertText acc.2 sectionText],
       acc.2 + sectionText.length))
    (reqs, currentIndex)
  folded.1 ++ [titleStyleRequest data]

/-- The texts inserted by `_format_template_to_doc`, in order: the title
block followed by the 29 section blocks. -/
def insertedTexts (data : SMap) : List String :=
  titleBlockText data :: sectionsList.map (sectionBlockText data)

/-- Insert operations for a list of texts starting at index `i`, each
anchored at `i` plus the cumulative length of the previous texts. -/
def insertOpsFrom (i : Nat) : List String → List DocRequest
  | [] => []
  | t :: ts => DocRequest.insertText i t :: insertOpsFrom (i + t.length) ts

/-- Embeds `DocumentCreator.get_document_link` (document_creator.py:142-152):
`f"https://docs.google.com/document/d/{document_id}/edit"`. -/
def get_document_link (documentId : String) : String :=
  "https://docs.google.com/document/d/" ++ documentId ++ "/edit"

/-- The `{id, url}` pair returned by `create_document_from_template`. -/
structure DocHandle where
  id : String
  url : String
deriving DecidableEq

/-- Embeds `DocumentCreator.create_document_from_template`
(document_creator.py:154-198): authenticate when no service is initialized
(`none` on failure), create an empty document (`none` on a falsy id — the
API returning `None` or an empty string), render the template, submit the
batch update (`none` on failure), and return the `{id, url}` handle. -/
def create_document_from_template (serviceReady authOk : Bool)
    (createResult : Option String) (updateOk : Bool)
    (title : String) (templateData : SMap) : Option DocHandle :=
  if !serviceReady && !authOk then none
  else
    match createResult with
    | none => none
    | some docId =>
      if docId = "" then none
      else
        let _content := format_template_to_doc templateData
        if !updateOk then none
        else some ⟨docId, get_document_link docId⟩

/-- Recognizes `updateParagraphStyle` requests. -/
def isStyleReq : DocRequest → Bool
  | .updateParagraphStyle _ _ _ _ _ => true
  | .insertText _ _ => false

/-!
## Setting the spec's claims

Lemmas and one theorem per claim, in claim order where dependencies allow:
helper lemmas first, then each claim's theorem together with its
counterexample or witness.
-/

theorem sget?_sset_self (d : SMap) (k v : String) :
    sget? (sset d k v) k = some v := by
  induction d with
  | nil => simp [sset, sget?]
  | cons hd tl ih =>
    by_cases h : hd.1 = k <;> simp [sset, sget?, h, ih]

theorem sget?_sset_ne (d : SMap) (k k' v : String) (h : k' ≠ k) :
    sget? (sset d k' v) k = sget? d k := by
  induction d with
  | nil => simp [sset, sget?, h]
  | cons hd tl ih =>
    by_cases h2 : hd.1 = k' <;> simp [sset, sget?, h2, ih]
    · subst h2; simp [h, sget?]

theorem skeys_sset_of_mem (d : SMap) (k v : String) (h : k ∈ skeys d) :
    skeys (sset d k v) = skeys d := by
  induction d with
  | nil => simp [skeys] at h
  | cons hd tl ih =>
    simp only [skeys, List.map_cons, List.mem_cons] at h ⊢
    by_cases h2 : hd.1 = k
    · simp [sset, h2]
    · rcases h with h | h
      · exact absurd h.symm h2
      · simp only [sset, if_neg h2, List.map_cons, List.cons.injEq, true_and]
        exact ih h

theorem mem_skeys_of_sget? (d : SMap) (k v : String)
    (h : sget? d k = some v) : k ∈ skeys d := by
  induction d with
  | nil => simp [sget?] at h
  | cons hd tl ih =>
    simp only [sget?] at h
    by_cases h2 : hd.1 = k
    · simp [skeys, h2]
    · simp only [if_neg h2] at h
      simp [skeys] at ih ⊢
      exact Or.inr (ih h)

theorem sget?_exists_of_mem_skeys (d : SMap) (k : String) (h : k ∈ skeys d) :
    ∃ v, sget? d k = some v := by
  induction d with
  | nil => simp [skeys] at h
  | cons hd tl ih =>
    by_cases h2 : hd.1 = k
    · exact ⟨hd.2, by simp [sget?, h2]⟩
    · simp only [skeys, List.map_cons, List.mem_cons] at h
      rcases h with h | h
      · exact absurd h.symm h2
      · obtain ⟨v, hv⟩ := ih h
        exact ⟨v, by simp [sget?, h2, hv]⟩

theorem mem_of_sget? : ∀ (d : SMap) (k v : String),
    sget? d k = some v → (k, v) ∈ d
  | [], k, v, h => by simp [sget?] at h
  | (k', v') :: rest, k, v, h => by
    simp only [sget?] at h
    by_cases h2 : k' = k
    · simp only [if_pos h2, Option.some.injEq] at h
      subst h2; subst h
      exact List.mem_cons_self _ _
    · simp only [if_neg h2] at h
      exact List.mem_cons_of_mem _ (mem_of_sget? rest k v h)

theorem nonemptyAt_of_mem_skeys (d : SMap) (k : String)
    (hvals : ∀ kv ∈ d, kv.2 ≠ "") (h : k ∈ skeys d) : NonemptyAt d k := by
  obtain ⟨v, hv⟩ := sget?_exists_of_mem_skeys d k h
  exact ⟨v, hv, hvals (k, v) (mem_of_sget? d k v hv)⟩

theorem mergeStep_nonemptyAt_self (d : SMap) (kv : String × String)
    (h : kv.2 ≠ "") : NonemptyAt (mergeStep d kv) kv.1 := by
  unfold mergeStep
  cases hg : sget? d kv.1 with
  | none => exact ⟨kv.2, sget?_sset_self d kv.1 kv.2, h⟩
  | some v =>
    by_cases hv : v = ""
    · simp only [if_pos hv]
      exact ⟨kv.2, sget?_sset_self d kv.1 kv.2, h⟩
    · simp only [if_neg hv]
      exact ⟨v, hg, hv⟩

theorem mergeStep_nonemptyAt_preserve (d : SMap) (kv : String × String)
    (k : String) (hne : NonemptyAt d k) (h : kv.2 ≠ "") :
    NonemptyAt (mergeStep d kv) k := by
  by_cases hk : kv.1 = k
  · rw [← hk]
    exact mergeStep_nonemptyAt_self d kv h
  · obtain ⟨v, hg, hv⟩ := hne
    refine ⟨v, ?_, hv⟩
    unfold mergeStep
    cases hd : sget? d kv.1 with
    | none => rw [sget?_sset_ne d k kv.1 kv.2 hk]; exact hg
    | some w =>
      by_cases hw : w = ""
      · simp only [if_pos hw]
        rw [sget?_sset_ne d k kv.1 kv.2 hk]; exact hg
      · simp only [if_neg hw]; exact hg

theorem foldl_mergeStep_nonemptyAt (pairs : List (String × String)) :
    ∀ (d : SMap) (k : String),
      (∀ kv ∈ pairs, kv.2 ≠ "") →
      ((∃ dv, (k, dv) ∈ pairs) ∨ NonemptyAt d k) →
      NonemptyAt (pairs.foldl mergeStep d) k := by
  induction pairs with
  | nil =>
    intro d k _ h
    rcases h with ⟨dv, h⟩ | h
    · simp at h
    · simpa using h
  | cons hd tl ih =>
    intro d k hvals hmem
    rw [List.foldl_cons]
    have hvtl : ∀ kv ∈ tl, kv.2 ≠ "" :=
      fun kv hkv => hvals kv (List.mem_cons_of_mem _ hkv)
    have hvhd : hd.2 ≠ "" := hvals hd (List.mem_cons_self hd tl)
    rcases hmem with ⟨dv, hdv⟩ | hne
    · rcases List.mem_cons.mp hdv with heq | htl
      · refine ih (mergeStep d hd) k hvtl (Or.inr ?_)
        have hk : hd.1 = k := by rw [← heq]
        rw [← hk]
        exact mergeStep_nonemptyAt_self d hd hvhd
      · exact ih (mergeStep d hd) k hvtl (Or.inl ⟨dv, htl⟩)
    · exact ih (mergeStep d hd) k hvtl
        (Or.inr (mergeStep_nonemptyAt_preserve d hd k hne hvhd))

/-- Every registry default value is a non-empty string. -/
theorem default_values_nonempty : ∀ kv ∈ default_template_data, kv.2 ≠ "" := by
  decide

theorem pair_exists_of_mem_skeys (d : SMap) (k : String) (h : k ∈ skeys d) :
    ∃ v, (k, v) ∈ d := by
  simp only [skeys, List.mem_map] at h
  obtain ⟨kv, hkv, hk⟩ := h
  exact ⟨kv.2, by rw [← hk]; exact hkv⟩

theorem mergeWithDefaults_nonemptyAt (data : SMap) (k : String)
    (h : k ∈ sectionKeys) : NonemptyAt (mergeWithDefaults data) k := by
  unfold mergeWithDefaults
  exact foldl_mergeStep_nonemptyAt default_template_data data k
    default_values_nonempty (Or.inl (pair_exists_of_mem_skeys _ k h))

theorem skeys_sset_section (d : SMap) (k v : String)
    (h : skeys d = sectionKeys) (hk : k ∈ sectionKeys) :
    skeys (sset d k v) = sectionKeys := by
  rw [skeys_sset_of_mem d k v (h ▸ hk)]
  exact h

theorem skeys_basic_parsing (tm sm fm : Option String) :
    skeys (basic_parsing tm sm fm) = sectionKeys := by
  unfold basic_parsing
  cases tm <;> cases sm <;> cases fm <;>
    simp only [] <;>
    (repeat refine skeys_sset_section _ _ _ ?_ (by decide)) <;>
    rfl

theorem basic_parsing_untouched (tm sm fm : Option String) (k : String)
    (h1 : k ≠ "title") (h2 : k ≠ "summary")
    (h3 : k ≠ "functional_requirements") :
    sget? (basic_parsing tm sm fm) k = sget? default_template_data k := by
  unfold basic_parsing
  cases tm <;> cases sm <;> cases fm <;>
    simp only [] <;>
    (repeat first
      | rw [sget?_sset_ne _ k "title" _ (Ne.symm h1)]
      | rw [sget?_sset_ne _ k "summary" _ (Ne.symm h2)]
      | rw [sget?_sset_ne _ k "functional_requirements" _ (Ne.symm h3)])

theorem basic_parsing_title (tm sm fm : Option String) (t : String)
    (h : tm = some t) :
    sget? (basic_parsing tm sm fm) "title" = some (stripStr t) := by
  subst h
  unfold basic_parsing
  cases sm <;> cases fm <;>
    simp only [] <;>
    (repeat first
      | rw [sget?_sset_ne _ "title" "summary" _ (by decide)]
      | rw [sget?_sset_ne _ "title" "functional_requirements" _ (by decide)]) <;>
    exact sget?_sset_self _ _ _

theorem basic_parsing_summary (tm sm fm : Option String) (t : String)
    (h : sm = some t) :
    sget? (basic_parsing tm sm fm) "summary" = some (stripStr t) := by
  subst h
  unfold basic_parsing
  cases tm <;> cases fm <;>
    simp only [] <;>
    (repeat
      rw [sget?_sset_ne _ "summary" "functional_requirements" _ (by decide)]) <;>
    exact sget?_sset_self _ _ _

theorem basic_parsing_funcreq (tm sm fm : Option String) (t : String)
    (h : fm = some t) :
    sget? (basic_parsing tm sm fm) "functional_requirements"
      = some (stripStr t) := by
  subst h
  unfold basic_parsing
  cases tm <;> cases sm <;>
    simp only [] <;>
    exact sget?_sset_self _ _ _

/-- C1, counterexample, in two parts.  First, on the language-model path the
returned mapping does not contain *exactly* the fixed key set — a key
invented by the model (here `extra_key` in the parsed JSON response) is
retained alongside the fixed keys.  Second, on the rule-based path a key
*can* be empty: for the input `"제목: "` the title regex
`(제목|타이틀|이름|소프트웨어명)[\s:]*([^\n]+)` matches with
`group(2) = " "` (the character class backtracks to leave one space for the
mandatory group), whose `strip()` is the empty string, so the returned
mapping binds `title` to `""`. -/
theorem c1_counterexample :
    ("extra_key" ∈
        skeys (parse_user_input (some "k") (.ok [("extra_key", "x")])
          none none none)
      ∧ "extra_key" ∉ sectionKeys)
    ∧ sget? (parse_user_input none (.error ()) (some " ") none none) "title"
        = some "" := by
  constructor
  · decide
  · decide

/-- C1 (amended): on every path `parse_user_input` returns a mapping
containing at least the fixed Section Mapping key set; on the
language-model-backed path (including its error fallback) every fixed key is
bound to a non-empty value, but extra keys from the model's JSON response
are retained; on the rule-based path (no API key) the key set is exactly the
fixed key set, every key other than the three regex-overridable ones keeps
its non-empty registry default, and an overridden key carries the stripped
capture group — which can be the empty string. -/
theorem c1_parse_user_input_section_invariant
    (apiKey : Option String) (aiResult : Except Unit SMap)
    (tm sm fm : Option String) :
    (∀ k ∈ sectionKeys,
        ∃ v, sget? (parse_user_input apiKey aiResult tm sm fm) k = some v)
    ∧ (apiKey.isSome = true → ∀ k ∈ sectionKeys,
        NonemptyAt (parse_user_input apiKey aiResult tm sm fm) k)
    ∧ (apiKey = none →
        skeys (parse_user_input apiKey aiResult tm sm fm) = sectionKeys)
    ∧ (apiKey = none → ∀ k ∈ sectionKeys, k ≠ "title" → k ≠ "summary" →
        k ≠ "functional_requirements" →
        NonemptyAt (parse_user_input apiKey aiResult tm sm fm) k)
    ∧ (apiKey = none →
        (∀ t, tm = some t →
          sget? (parse_user_input apiKey aiResult tm sm fm) "title"
            = some (stripStr t))
        ∧ (∀ t, sm = some t →
          sget? (parse_user_input apiKey aiResult tm sm fm) "summary"
            = some (stripStr t))
        ∧ (∀ t, fm = some t →
          sget? (parse_user_input apiKey aiResult tm sm fm)
            "functional_requirements" = some (stripStr t))) := by
  have hAI : ∀ k ∈ sectionKeys,
      NonemptyAt (generate_template_data_with_ai aiResult) k := by
    intro k hk
    cases aiResult with
    | error e =>
      exact nonemptyAt_of_mem_skeys default_template_data k
        default_values_nonempty hk
    | ok data => exact mergeWithDefaults_nonemptyAt data k hk
  refine ⟨?_, ?_, ?_, ?_, ?_⟩
  · intro k hk
    cases apiKey with
    | none =>
      exact sget?_exists_of_mem_skeys _ k ((skeys_basic_parsing tm sm fm) ▸ hk)
    | some key =>
      obtain ⟨v, hv, _⟩ := hAI k hk
      exact ⟨v, hv⟩
  · intro hsome k hk
    cases apiKey with
    | none => simp at hsome
    | some key => exact hAI k hk
  · intro hnone
    subst hnone
    exact skeys_basic_parsing tm sm fm
  · intro hnone k hk h1 h2 h3
    subst hnone
    obtain ⟨v, hv, hne⟩ :=
      nonemptyAt_of_mem_skeys default_template_data k
        default_values_nonempty hk
    refine ⟨v, ?_, hne⟩
    show sget? (basic_parsing tm sm fm) k = some v
    rw [basic_parsing_untouched tm sm fm k h1 h2 h3]
    exact hv
  · intro hnone
    subst hnone
    exact ⟨fun t ht => basic_parsing_title tm sm fm t ht,
      fun t ht => basic_parsing_summary tm sm fm t ht,
      fun t ht => basic_parsing_funcreq tm sm fm t ht⟩

/-- C1, witness: the amended invariant evaluated on the language-model path
at a concrete model response. -/
theorem c1_witness :
    NonemptyAt (parse_user_input (some "k") (.ok [("extra_key", "x")])
      none none none) "title" :=
  (c1_parse_user_input_section_invariant (some "k") (.ok [("extra_key", "x")])
      none none none).2.1 rfl "title" (by decide)

/-- C10: with no language-model API key configured, the rule-based parser
leaves every key other than `title`, `summary` and `functional_requirements`
at its registry default value, whatever the three regex searches matched. -/
theorem c10_basic_parsing_frame (tm sm fm : Option String) (k : String)
    (h1 : k ≠ "title") (h2 : k ≠ "summary")
    (h3 : k ≠ "functional_requirements") :
    sget? (basic_parsing tm sm fm) k = sget? default_template_data k :=
  basic_parsing_untouched tm sm fm k h1 h2 h3

/-- C10, witness: the frame property evaluated with all three regex searches
matching, at the untouched key `glossary`. -/
theorem c10_witness :
    sget? (basic_parsing (some "T") (some "S") (some "F")) "glossary"
      = sget? default_template_data "glossary" :=
  c10_basic_parsing_frame (some "T") (some "S") (some "F") "glossary"
    (by decide) (by decide) (by decide)

/-!
### Behaviour of the splitter on a run of 2200 identical characters

For a text with no newline and no space the splitter picks the empty
separator, turns the text into single-character splits, and merges them.
The concrete scenario of the spec is settled by characterising the merge
loop on `n` copies of the singleton split `['A']`.
-/

theorem intercalate_nil_sep : ∀ l : List PyStr, List.intercalate [] l = l.flatten
  | [] => by simp [List.intercalate]
  | [x] => by simp [List.intercalate, List.intersperse]
  | x :: y :: zs => by
    have ih := intercalate_nil_sep (y :: zs)
    simp only [List.intercalate, List.intersperse] at ih ⊢
    simp only [List.flatten_cons, List.nil_append, List.flatten]
    rw [← List.flatten_cons]
    simp [ih]

theorem flatten_replicate_singleton (n : Nat) (c : Char) :
    (List.replicate n [c]).flatten = List.replicate n c := by
  induction n with
  | zero => simp
  | succ m ih => simp [List.replicate_succ, ih]

theorem dropWhile_ws_replicate_A (n : Nat) :
    List.dropWhile Char.isWhitespace (List.replicate n 'A')
      = List.replicate n 'A' := by
  cases n with
  | zero => simp
  | succ m =>
    rw [List.replicate_succ, List.dropWhile_cons]
    simp [show Char.isWhitespace 'A' = false by decide]

theorem pyStrip_replicate_A (n : Nat) :
    pyStrip (List.replicate n 'A') = List.replicate n 'A' := by
  unfold pyStrip
  rw [dropWhile_ws_replicate_A, List.reverse_replicate, dropWhile_ws_replicate_A,
    List.reverse_replicate]

theorem joinDocs_replicate_A (n : Nat) (hn : 0 < n) :
    joinDocs (List.replicate n ['A']) [] = some (List.replicate n 'A') := by
  unfold joinDocs
  rw [intercalate_nil_sep, flatten_replicate_singleton, pyStrip_replicate_A]
  rw [if_neg]
  intro h
  rw [List.eq_nil_iff_forall_not_mem] at h
  cases n with
  | zero => omega
  | succ m => exact h 'A' (by simp [List.replicate_succ])

theorem popOverlap_replicate_A :
    ∀ k, popOverlap 1000 200 0 1 (List.replicate (200 + k) ['A']) (200 + k)
      = (List.replicate 200 ['A'], 200) := by
  intro k
  induction k with
  | zero =>
    rw [show (200 : Nat) + 0 = 199 + 1 by rfl, List.replicate_succ]
    unfold popOverlap
    rw [if_neg (by omega)]
  | succ m ih =>
    rw [show 200 + (m + 1) = (200 + m) + 1 by omega, List.replicate_succ]
    unfold popOverlap
    rw [if_pos (by omega)]
    simp only [List.length_replicate, ite_self, List.length_cons,
      List.length_nil, Nat.zero_add]
    have h2 : 200 + m + 1 - (1 + 0) = 200 + m := by omega
    rw [h2, ih]

theorem mergeOne_fill (docs : List PyStr) (t : Nat) (ht : t + 1 ≤ 1000) :
    mergeOne 1000 200 [] ⟨docs, List.replicate t ['A'], t⟩ ['A']
      = ⟨docs, List.replicate (t + 1) ['A'], t + 1⟩ := by
  unfold mergeOne
  simp only [List.length_replicate, List.length_cons, List.length_nil,
    ite_self, Nat.add_zero, Nat.zero_add]
  rw [if_neg (by omega)]
  rw [← List.replicate_succ']

theorem foldl_fill (k : Nat) :
    ∀ (docs : List PyStr) (t : Nat), t + k ≤ 1000 →
      (List.replicate k ['A']).foldl (mergeOne 1000 200 [])
          ⟨docs, List.replicate t ['A'], t⟩
        = ⟨docs, List.replicate (t + k) ['A'], t + k⟩ := by
  induction k with
  | zero => intro docs t _; simp
  | succ m ih =>
    intro docs t ht
    rw [List.replicate_succ, List.foldl_cons, mergeOne_fill docs t (by omega)]
    rw [ih docs (t + 1) (by omega)]
    rw [show t + 1 + m = t + (m + 1) by omega]

theorem mergeOne_emit (docs : List PyStr) :
    mergeOne 1000 200 [] ⟨docs, List.replicate 1000 ['A'], 1000⟩ ['A']
      = ⟨docs ++ [List.replicate 1000 'A'], List.replicate 201 ['A'], 201⟩ := by
  have hp : popOverlap 1000 200 0 1 (List.replicate 1000 ['A']) 1000
      = (List.replicate 200 ['A'], 200) := popOverlap_replicate_A 800
  unfold mergeOne
  simp only [List.length_replicate, List.length_cons, List.length_nil,
    ite_self, Nat.add_zero, Nat.zero_add]
  rw [if_pos (by omega), if_pos (by omega)]
  rw [joinDocs_replicate_A 1000 (by omega), hp]
  simp only [List.length_replicate, ite_self, Nat.add_zero]
  rw [← List.replicate_succ']

theorem mergeSplits_eq (cs co : Nat) (splits : List PyStr) (sep : PyStr)
    (st : MergeState) (h : splits.foldl (mergeOne cs co sep) ⟨[], [], 0⟩ = st) :
    mergeSplits cs co splits sep
      = match joinDocs st.currentDoc sep with
        | some doc => st.docs ++ [doc]
        | none => st.docs := by
  unfold mergeSplits
  rw [h]

theorem mergeSplits_2200_A :
    mergeSplits 1000 200 (List.replicate 2200 ['A']) []
      = [List.replicate 1000 'A', List.replicate 1000 'A',
         List.replicate 600 'A'] := by
  have hsplit : List.replicate 2200 (['A'] : PyStr)
      = List.replicate 1000 ['A'] ++ List.replicate 1 ['A']
        ++ List.replicate 799 ['A'] ++ List.replicate 1 ['A']
        ++ List.replicate 399 ['A'] := by
    rw [← List.replicate_add, ← List.replicate_add, ← List.replicate_add,
      ← List.replicate_add]
  have hst : (List.replicate 2200 (['A'] : PyStr)).foldl (mergeOne 1000 200 [])
      ⟨[], [], 0⟩
      = ⟨[List.replicate 1000 'A', List.replicate 1000 'A'],
         List.replicate 600 ['A'], 600⟩ := by
    rw [hsplit, List.foldl_append, List.foldl_append, List.foldl_append,
      List.foldl_append]
    rw [show (⟨[], [], 0⟩ : MergeState) = ⟨[], List.replicate 0 ['A'], 0⟩
      from rfl]
    rw [foldl_fill 1000 [] 0 (by omega)]
    simp only [List.replicate_one, List.foldl_cons, List.foldl_nil,
      Nat.zero_add]
    rw [mergeOne_emit []]
    rw [foldl_fill 799 _ 201 (by omega)]
    rw [show (201 : Nat) + 799 = 1000 by rfl]
    rw [mergeOne_emit _]
    rw [foldl_fill 399 _ 201 (by omega)]
    rw [show (201 : Nat) + 399 = 600 by rfl]
    simp
  rw [mergeSplits_eq 1000 200 _ [] _ hst]
  simp only [joinDocs_replicate_A 600 (by omega)]
  rfl

theorem not_prefix_replicate_A (c : Char) (tl : List Char)
    (hc : (c == 'A') = false) (m : Nat) :
    (c :: tl).isPrefixOf (List.replicate m 'A') = false := by
  cases m with
  | zero => simp [List.isPrefixOf]
  | succ k =>
    rw [List.replicate_succ]
    simp [List.isPrefixOf, hc]

theorem containsSub_replicate_A (n : Nat) (c : Char) (tl : List Char)
    (hc : (c == 'A') = false) :
    containsSub (List.replicate n 'A') (c :: tl) = false := by
  unfold containsSub findSubIdx?
  rw [List.find?_eq_none.mpr]
  · rfl
  · intro i _
    rw [List.drop_replicate, not_prefix_replicate_A c tl hc]
    simp

theorem chooseSeparator_replicate_A (n : Nat) :
    chooseSeparator defaultSeparators (List.replicate n 'A') = [] := by
  have h1 := containsSub_replicate_A n '\n' ['\n'] (by decide)
  have h2 := containsSub_replicate_A n '\n' [] (by decide)
  have h3 := containsSub_replicate_A n ' ' [] (by decide)
  unfold chooseSeparator defaultSeparators
  rw [List.find?]
  simp only [List.isEmpty, h1, Bool.false_or]
  rw [List.find?]
  simp only [List.isEmpty, h2, Bool.false_or]
  rw [List.find?]
  simp only [List.isEmpty, h3, Bool.false_or]
  rw [List.find?]
  simp

theorem pySplit_replicate_A (n : Nat) :
    pySplit (List.replicate n 'A') [] = List.replicate n ['A'] := by
  unfold pySplit
  rw [if_pos rfl, List.map_replicate]

theorem foldl_splitStep_good (cs co : Nat) (sep : PyStr)
    (r : PyStr → List PyStr) :
    ∀ (l : List PyStr) (fc good : List PyStr), (∀ s ∈ l, s.length < cs) →
      l.foldl (splitStep cs co sep r) (fc, good) = (fc, good ++ l) := by
  intro l
  induction l with
  | nil => intro fc good _; simp
  | cons s tl ih =>
    intro fc good hl
    rw [List.foldl_cons]
    have hs : s.length < cs := hl s (List.mem_cons_self s tl)
    rw [show splitStep cs co sep r (fc, good) s = (fc, good ++ [s]) from by
      simp [splitStep, hs]]
    rw [ih fc (good ++ [s]) (fun x hx => hl x (List.mem_cons_of_mem s hx))]
    simp

theorem splitTextFuel_succ (cs co fuel : Nat) (text : PyStr) :
    splitTextFuel cs co (fuel + 1) text
      = (let sep := chooseSeparator defaultSeparators text
         let splits := pySplit text sep
         let res := splits.foldl
           (splitStep cs co sep (fun s => splitTextFuel cs co fuel s)) ([], [])
         if res.2 ≠ [] then res.1 ++ mergeSplits cs co res.2 sep else res.1) :=
  rfl

theorem split_text_2200_A :
    split_text (List.replicate 2200 'A')
      = [List.replicate 1000 'A', List.replicate 1000 'A',
         List.replicate 600 'A'] := by
  unfold split_text
  rw [List.length_replicate]
  rw [splitTextFuel_succ]
  simp only []
  rw [chooseSeparator_replicate_A 2200, pySplit_replicate_A 2200]
  rw [foldl_splitStep_good 1000 200 [] _ (List.replicate 2200 ['A']) [] []
    (fun s hs => by rw [List.eq_of_mem_replicate hs]; simp)]
  rw [List.nil_append]
  have hne : (List.replicate 2200 (['A'] : PyStr)) ≠ [] := by
    rw [← List.length_pos_iff_ne_nil, List.length_replicate]
    omega
  rw [if_pos hne]
  rw [mergeSplits_2200_A, List.nil_append]

/-- C2, counterexample: chunking 2200 identical characters with the
splitter the code constructs yields chunk lengths 1000, 1000, 600 — not
1000, 1000, 400 as claimed (the third chunk spans positions 1600–2200, which
is 600 characters). -/
theorem c2_counterexample :
    (split_text (List.replicate 2200 'A')).map List.length
      ≠ [1000, 1000, 400] := by
  rw [split_text_2200_A]
  simp only [List.map_cons, List.map_nil, List.length_replicate]
  decide

/-- C2 (amended): ingesting 2200 identical characters (primary text path of
`process_document`, which uses the 1000/200 splitter) deterministically
yields exactly 3 chunks at boundaries 0–1000, 800–1800, 1600–2200, of
lengths 1000, 1000, 600; no chunk exceeds 1000 characters and only the last
chunk is shorter. -/
theorem c2_process_document_2200_chunks :
    process_document true ".txt" [] (.ok (List.replicate 2200 'A'))
        (.error ()) false (.error ()) (.error ()) none
      = .ok [⟨(List.replicate 2200 'A').take 1000, []⟩,
             ⟨((List.replicate 2200 'A').drop 800).take 1000, []⟩,
             ⟨(List.replicate 2200 'A').drop 1600, []⟩]
    ∧ (split_text (List.replicate 2200 'A')).map List.length
        = [1000, 1000, 600] := by
  have hsd : split_documents [⟨List.replicate 2200 'A', []⟩]
      = [⟨List.replicate 1000 'A', []⟩, ⟨List.replicate 1000 'A', []⟩,
         ⟨List.replicate 600 'A', []⟩] := by
    unfold split_documents
    simp only [List.map_cons, List.map_nil, List.flatten_cons,
      List.flatten_nil, List.append_nil]
    rw [split_text_2200_A]
    simp only [List.map_cons, List.map_nil]
  have hpd : process_document true ".txt" [] (.ok (List.replicate 2200 'A'))
      (.error ()) false (.error ()) (.error ()) none
      = .ok (split_documents [⟨List.replicate 2200 'A', []⟩]) := rfl
  constructor
  · rw [hpd, hsd]
    rw [show (List.replicate 2200 'A').take 1000 = List.replicate 1000 'A'
      from by rw [List.take_replicate]; norm_num]
    rw [show (List.replicate 2200 'A').drop 800 = List.replicate 1400 'A'
      from by rw [List.drop_replicate]]
    rw [show (List.replicate 1400 'A').take 1000 = List.replicate 1000 'A'
      from by rw [List.take_replicate]; norm_num]
    rw [show (List.replicate 2200 'A').drop 1600 = List.replicate 600 'A'
      from by rw [List.drop_replicate]]
  · rw [split_text_2200_A]
    simp only [List.map_cons, List.map_nil, List.length_replicate]

/-- C5, counterexample: a readable file with the unsupported extension
`.xyz` does not fail — the primary path reads it as text and returns its
chunks; no `UnsupportedFormat` error exists anywhere in `process_document`
(its only errors are `FileNotFoundError` and the last-resort
`ValueError`). -/
theorem c5_counterexample :
    process_document true ".xyz" [] (.ok "hello".toList) (.error ()) false
        (.error ()) (.error ()) none
      = .ok [⟨"hello".toList, []⟩] := by
  decide

/-- C5 (amended): `process_document` never fails because of an unsupported
extension: on the primary path every readable file is treated as plain text
and chunked, whatever its extension; when the primary read fails, a file
with an extension other than `.txt`/`.pdf` is still handled by the binary
fallback read instead of failing; and for an existing file an error — always
`ValueError`, never an `UnsupportedFormat` — escapes only when every read
attempt failed: the primary read, the last-resort read, and (for extensions
other than `.txt`/`.pdf`) the binary fallback read. -/
theorem c5_process_document_ignores_extension
    (ext : String) (baseName text : PyStr)
    (loaderResult : Except Unit (List PyDoc)) (pypdfOk : Bool)
    (binaryRead lastResortRead : Except Unit PyStr) (metadata : Option SMap) :
    (process_document true ext baseName (.ok text) loaderResult pypdfOk
        binaryRead lastResortRead metadata
      = .ok (split_documents [⟨text, metadata.getD []⟩]))
    ∧ (ext ≠ ".txt" → ext ≠ ".pdf" →
        process_document true ext baseName (.error ()) loaderResult pypdfOk
          (.ok text) lastResortRead metadata
        = .ok (split_documents [⟨text, metadata.getD []⟩]))
    ∧ (∀ (pr br lr : Except Unit PyStr) (lres : Except Unit (List PyDoc))
          (e : PDError),
        process_document true ext baseName pr lres pypdfOk br lr metadata
          = .error e →
        e = .valueError ∧ pr = .error () ∧ lr = .error ()
          ∧ (ext ≠ ".txt" → ext ≠ ".pdf" → br = .error ())) := by
  refine ⟨rfl, ?_, ?_⟩
  · intro h1 h2
    unfold process_document
    simp [h1, h2, Except.map]
  · intro pr br lr lres e h
    cases pr with
    | ok t =>
      have hok : process_document true ext baseName (.ok t) lres pypdfOk br lr
          metadata = .ok (split_documents [⟨t, metadata.getD []⟩]) := rfl
      rw [hok] at h
      exact Except.noConfusion h
    | error u =>
      cases u
      cases lr with
      | ok t2 =>
        exfalso
        unfold process_document at h
        by_cases h1 : ext = ".txt" <;> by_cases h2 : ext = ".pdf" <;>
          cases lres <;> cases br <;> cases pypdfOk <;>
            simp [h1, h2, Except.map] at h
      | error u2 =>
        cases u2
        refine ⟨?_, rfl, rfl, ?_⟩
        · unfold process_document at h
          by_cases h1 : ext = ".txt" <;> by_cases h2 : ext = ".pdf" <;>
            cases lres <;> cases br <;> cases pypdfOk <;>
              simp [h1, h2, Except.map] at h <;> exact h.symm
        · intro h1 h2
          cases br with
          | error u3 => cases u3; rfl
          | ok t3 =>
            exfalso
            unfold process_document at h
            simp [h1, h2, Except.map] at h

/-- C5, witness: the amended theorem's fallback clause at the unsupported
extension `.xyz`. -/
theorem c5_witness :
    process_document true ".xyz" [] (.error ()) (.error ()) false
        (.ok ['h', 'i']) (.error ()) none
      = .ok (split_documents [⟨['h', 'i'], []⟩]) :=
  (c5_process_document_ignores_extension ".xyz" [] ['h', 'i'] (.error ())
    false (.error ()) (.error ()) none).2.1 (by decide) (by decide)

theorem sget?_eq_none_of_not_mem (d : SMap) (k : String) (h : k ∉ skeys d) :
    sget? d k = none := by
  cases hg : sget? d k with
  | none => rfl
  | some v => exact absurd (mem_skeys_of_sget? d k v hg) h

theorem pyUpdate_sget? : ∀ (b a : SMap) (k : String), (skeys b).Nodup →
    sget? (pyUpdate a b) k = (sget? b k).or (sget? a k) := by
  intro b
  induction b with
  | nil => intro a k _; simp [pyUpdate, sget?]
  | cons kv rest ih =>
    intro a k hnd
    have hnd' : (skeys rest).Nodup := (List.nodup_cons.mp hnd).2
    have hmem : kv.1 ∉ skeys rest := (List.nodup_cons.mp hnd).1
    have hstep : pyUpdate a (kv :: rest) = pyUpdate (sset a kv.1 kv.2) rest :=
      rfl
    rw [hstep, ih (sset a kv.1 kv.2) k hnd']
    by_cases hk : kv.1 = k
    · subst hk
      rw [sget?_eq_none_of_not_mem rest kv.1 hmem, sget?_sset_self]
      simp [sget?]
    · rw [sget?_sset_ne a k kv.1 kv.2 hk]
      have : sget? (kv :: rest) k = sget? rest k := by simp [sget?, hk]
      rw [this]

/-- C6, counterexample: on the loader fallback path, a caller-supplied
metadata key *does* overwrite the extraction-time key of the same name
(`doc.metadata.update(metadata)` has last-writer-wins semantics): a segment
extracted with `source = "a.txt"`, ingested with caller metadata
`source = "b"`, comes out carrying `source = "b"`, not `"a.txt"`. -/
theorem c6_counterexample :
    process_document true ".txt" [] (.error ())
        (.ok [⟨['x'], [("source", "a.txt")]⟩]) false (.error ()) (.error ())
        (some [("source", "b")])
      ≠ .ok [⟨['x'], [("source", "a.txt")]⟩]
    ∧ process_document true ".txt" [] (.error ())
        (.ok [⟨['x'], [("source", "a.txt")]⟩]) false (.error ()) (.error ())
        (some [("source", "b")])
      = .ok [⟨['x'], [("source", "b")]⟩] := by
  constructor
  · decide
  · decide

/-- C6 (amended): when the loader fallback path applies non-empty
caller-supplied metadata, every extracted segment's metadata becomes the set
union of its extraction-time metadata and the caller-supplied metadata, and
for a key present in both the caller-supplied value wins (Python
`dict.update` semantics) — not the extraction-time value. -/
theorem c6_metadata_union_caller_wins
    (baseName : PyStr) (docs : List PyDoc) (m : SMap) (pypdfOk : Bool)
    (binaryRead lastResortRead : Except Unit PyStr)
    (hm : m ≠ []) (hnd : (skeys m).Nodup) :
    process_document true ".txt" baseName (.error ()) (.ok docs) pypdfOk
        binaryRead lastResortRead (some m)
      = .ok (split_documents (docs.map fun d =>
          { d with metadata := pyUpdate d.metadata m }))
    ∧ ∀ (a : SMap) (k : String),
        sget? (pyUpdate a m) k = (sget? m k).or (sget? a k) := by
  constructor
  · have hne : m.isEmpty = false := by
      cases m with
      | nil => exact absurd rfl hm
      | cons kv rest => rfl
    unfold process_document
    simp [hne, Except.map]
  · intro a k
    exact pyUpdate_sget? m a k hnd

/-- C6, witness: the amended theorem evaluated at one segment with an
extraction-time `source` key and a caller metadata carrying the same key. -/
theorem c6_witness :
    process_document true ".txt" [] (.error ())
        (.ok [⟨['x'], [("source", "a.txt")]⟩]) false (.error ()) (.error ())
        (some [("source", "b")])
      = .ok (split_documents
          (([⟨['x'], [("source", "a.txt")]⟩] : List PyDoc).map fun d =>
            { d with metadata := pyUpdate d.metadata [("source", "b")] })) :=
  (c6_metadata_union_caller_wins [] [⟨['x'], [("source", "a.txt")]⟩]
    [("source", "b")] false (.error ()) (.error ())
    (by decide) (by decide)).1

/-- C3, counterexample: with an API key configured but the vector index
absent (and hence retrieval impossible), `generate_template_from_query` does
not return an empty mapping — it forwards whatever the model returned,
because the simplified implementation never consults the vector store. -/
theorem c3_counterexample :
    (generate_template_from_query
        ⟨some "k", false, none, none⟩ "q" (.ok [("title", "X")])).1
      = [("title", "X")]
    ∧ [(("title" : String), ("X" : String))] ≠ ([] : SMap) := by
  constructor
  · rfl
  · decide

/-- C3 (amended): `generate_template_from_query` returns an empty mapping
exactly when the language-model credential is absent, the completion request
(or its JSON parse) fails, or the model returns the empty JSON object `{}`;
the vector store plays no role — states differing only in their vector store
and persist directory produce the same result, so an absent or empty index
does not by itself yield an empty mapping. -/
theorem c3_generate_empty_conditions (s s' : LearnerState) (query : String)
    (llmResult : Except Unit SMap)
    (hkey : s.apiKey = s'.apiKey) :
    ((generate_template_from_query s query llmResult).1 = []
      ↔ (s.apiKey = none ∨ llmResult = .error () ∨ llmResult = .ok []))
    ∧ (generate_template_from_query s query llmResult
        = generate_template_from_query s' query llmResult) := by
  constructor
  · unfold generate_template_from_query
    cases hk : s.apiKey with
    | none => simp
    | some key =>
      cases llmResult with
      | ok d => simp
      | error u => cases u; simp
  · unfold generate_template_from_query
    rw [hkey]

/-- C3, witness: the amended theorem evaluated with no API key. -/
theorem c3_witness :
    (generate_template_from_query ⟨none, false, none, none⟩ "q"
        (.ok [("title", "X")])).1 = [] :=
  (c3_generate_empty_conditions ⟨none, false, none, none⟩
      ⟨none, false, none, none⟩ "q" (.ok [("title", "X")]) rfl).1.mpr
    (Or.inl rfl)

/-- C4, counterexample: even with an API key and a non-empty vector store,
`generate_template_from_query` performs no vector-store search at all (its
trace of `search` calls is empty, in particular it does not contain a top-5
search for the query), so the completion request cannot include any
retrieved chunk text. -/
theorem c4_counterexample :
    (generate_template_from_query
        ⟨some "k", true, some [⟨['C'], []⟩], some [⟨['C'], []⟩]⟩ "q"
        (.ok [])).2.searches = []
    ∧ ([] : List (String × Nat)) ≠ [("q", 5)] := by
  constructor
  · rfl
  · decide

/-- C4 (amended): whenever the language-model credential is present,
`generate_template_from_query` issues exactly one completion request, whose
system message is the fixed instruction and whose user content is the fixed
label `사용자 입력: ` followed by the query alone; it performs no
vector-store search and includes no retrieved chunk text. -/
theorem c4_single_llm_call_no_retrieval (s : LearnerState) (query : String)
    (llmResult : Except Unit SMap) (h : s.apiKey.isSome = true) :
    (generate_template_from_query s query llmResult).2
      = ⟨[], [(systemInstruction, "사용자 입력: " ++ query)]⟩ := by
  unfold generate_template_from_query
  have hn : s.apiKey.isNone = false := by
    cases hk : s.apiKey with
    | none => rw [hk] at h; simp at h
    | some v => rfl
  rw [hn]
  simp only [Bool.false_eq_true, if_false]
  cases llmResult <;> rfl

/-- C4, witness: the amended theorem evaluated at a concrete state with an
API key and a non-empty store. -/
theorem c4_witness :
    (generate_template_from_query
        ⟨some "k", true, some [⟨['C'], []⟩], some [⟨['C'], []⟩]⟩ "q"
        (.ok [])).2
      = ⟨[], [(systemInstruction, "사용자 입력: " ++ "q")]⟩ :=
  c4_single_llm_call_no_retrieval
    ⟨some "k", true, some [⟨['C'], []⟩], some [⟨['C'], []⟩]⟩ "q" (.ok []) rfl

/-- C8: `search_similar_documents` returns an empty list and raises nothing
whenever the store (after lazy initialization) is absent or empty — the
similarity ranking is assumed to permute the store's documents — and in
particular a successful `clear()` followed immediately by a search returns
an empty list, whatever the search oracles do. -/
theorem initialize_no_dir (t : LearnerState) (importOk loadOk : Bool)
    (hv : t.vectorstore = none) (hd : t.persistDir = none) :
    (initialize_if_needed t importOk loadOk).vectorstore = none := by
  unfold initialize_if_needed
  by_cases hc : (!t.embedding && t.apiKey.isSome) = true
  · rw [if_pos hc]
    by_cases hio : importOk = true
    · rw [if_pos hio]
      simp [hd, hv]
    · rw [if_neg hio]
  · rw [if_neg hc]
    exact hv

theorem c8_search_empty_store (s : LearnerState) (query : String)
    (importOk loadOk : Bool) (simOrder : List PyDoc → String → List PyDoc)
    (searchFails : Bool)
    (hperm : ∀ d q, (simOrder d q).Perm d) :
    ((initialize_if_needed s importOk loadOk).vectorstore = none ∨
        (initialize_if_needed s importOk loadOk).vectorstore = some [] →
      (search_similar_documents s query 5 importOk loadOk simOrder
        searchFails).1 = [])
    ∧ (∀ rmtreeOk, (clear_vectorstore s rmtreeOk).1 = true →
        (search_similar_documents (clear_vectorstore s rmtreeOk).2 query 5
          importOk loadOk simOrder searchFails).1 = []) := by
  have hmain : ∀ (t : LearnerState),
      (initialize_if_needed t importOk loadOk).vectorstore = none ∨
        (initialize_if_needed t importOk loadOk).vectorstore = some [] →
      (search_similar_documents t query 5 importOk loadOk simOrder
        searchFails).1 = [] := by
    intro t h
    unfold search_similar_documents
    simp only []
    rcases h with h | h
    · rw [h]
    · rw [h]
      by_cases hf : searchFails = true
      · simp [hf]
      · have h0 : simOrder [] query = [] := (hperm [] query).eq_nil
        simp [hf, h0]
  refine ⟨hmain s, ?_⟩
  intro rmtreeOk hok
  have hcleared : (clear_vectorstore s rmtreeOk).2.vectorstore = none
      ∧ (clear_vectorstore s rmtreeOk).2.persistDir = none := by
    unfold clear_vectorstore at hok ⊢
    cases hp : s.persistDir with
    | some docs =>
      by_cases hr : rmtreeOk = true
      · simp [hr]
      · rw [hp] at hok
        simp [hr] at hok
    | none => simp
  exact hmain _ (Or.inl (initialize_no_dir _ importOk loadOk
    hcleared.1 hcleared.2))

/-- C8, witness: the concrete scenario — a successful `clear()` on a
populated learner followed immediately by `search("anything")` returns an
empty list. -/
theorem c8_witness :
    (search_similar_documents
        (clear_vectorstore
          ⟨some "k", true, some [⟨['C'], []⟩], some [⟨['C'], []⟩]⟩ true).2
        "anything" 5 true true (fun d _ => d) false).1 = [] :=
  (c8_search_empty_store
      ⟨some "k", true, some [⟨['C'], []⟩], some [⟨['C'], []⟩]⟩
      "anything" true true (fun d _ => d) false
      (fun d _ => List.Perm.refl d)).2 true rfl

theorem foldl_insert_section (data : SMap) :
    ∀ (secs : List (String × String)) (acc : List DocRequest) (i : Nat),
      secs.foldl
        (fun (acc : List DocRequest × Nat) kv =>
          let sectionText := sectionBlockText data kv
          (acc.1 ++ [DocRequest.insertText acc.2 sectionText],
           acc.2 + sectionText.length))
        (acc, i)
      = (acc ++ insertOpsFrom i (secs.map (sectionBlockText data)),
         i + ((secs.map (sectionBlockText data)).map String.length).sum) := by
  intro secs
  induction secs with
  | nil => intro acc i; simp [insertOpsFrom]
  | cons kv rest ih =>
    intro acc i
    rw [List.foldl_cons]
    simp only []
    rw [ih (acc ++ [DocRequest.insertText i (sectionBlockText data kv)])
      (i + (sectionBlockText data kv).length)]
    simp [insertOpsFrom, Nat.add_assoc]

theorem format_template_to_doc_eq (data : SMap) :
    format_template_to_doc data
      = insertOpsFrom 1 (insertedTexts data) ++ [titleStyleRequest data] := by
  unfold format_template_to_doc
  simp only []
  rw [foldl_insert_section data sectionsList
    [DocRequest.insertText 1 (titleBlockText data)]
    (1 + (titleBlockText data).length)]
  simp [insertedTexts, insertOpsFrom]

theorem insertOpsFrom_length :
    ∀ (ts : List String) (i : Nat), (insertOpsFrom i ts).length = ts.length := by
  intro ts
  induction ts with
  | nil => intro i; rfl
  | cons t rest ih => intro i; simp [insertOpsFrom, ih]

theorem insertOpsFrom_get? :
    ∀ (ts : List String) (i k : Nat),
      (insertOpsFrom i ts).get? k
        = (ts.get? k).map (fun t =>
            DocRequest.insertText (i + ((ts.take k).map String.length).sum)
              t) := by
  intro ts
  induction ts with
  | nil => intro i k; simp [insertOpsFrom]
  | cons t rest ih =>
    intro i k
    cases k with
    | zero => simp [insertOpsFrom]
    | succ m =>
      simp only [insertOpsFrom, List.get?_cons_succ, List.take_succ_cons,
        List.map_cons, List.sum_cons]
      rw [ih (i + t.length) m]
      simp [Nat.add_assoc]

theorem insertOpsFrom_countP_style :
    ∀ (ts : List String) (i : Nat),
      (insertOpsFrom i ts).countP isStyleReq = 0 := by
  intro ts
  induction ts with
  | nil => intro i; rfl
  | cons t rest ih =>
    intro i
    simp [insertOpsFrom, List.countP_cons, isStyleReq, ih]

/-- C7: for every section mapping, `_format_template_to_doc` emits the title
insert followed by one insert per fixed section slug in the canonical order
and a single trailing `updateParagraphStyle`; every insert's index is 1 plus
the cumulative length of all previously inserted text; the style request is
the only one, it applies the TITLE style, and its range
`1 .. len("# " + title) + 1` lies inside the first inserted block. -/
theorem c7_format_template_requests (data : SMap) :
    format_template_to_doc data
      = insertOpsFrom 1 (insertedTexts data) ++ [titleStyleRequest data]
    ∧ (insertedTexts data).length = 1 + sectionsList.length
    ∧ (∀ k t, (insertedTexts data).get? k = some t →
        (format_template_to_doc data).get? k
          = some (DocRequest.insertText
              (1 + (((insertedTexts data).take k).map String.length).sum) t))
    ∧ (format_template_to_doc data).countP isStyleReq = 1
    ∧ titleStyleRequest data
        = .updateParagraphStyle 1 (("# " ++ docTitle data).length + 1)
            "TITLE" "CENTER" "namedStyleType,alignment"
    ∧ ("# " ++ docTitle data).length + 1 ≤ 1 + (titleBlockText data).length := by
  refine ⟨format_template_to_doc_eq data, ?_, ?_, ?_, rfl, ?_⟩
  · simp [insertedTexts, Nat.add_comm]
  · intro k t hk
    have hlt : k < (insertedTexts data).length := by
      by_contra hge
      rw [List.get?_eq_none.mpr (by omega)] at hk
      exact Option.noConfusion hk
    rw [format_template_to_doc_eq data]
    rw [List.get?_append (by rw [insertOpsFrom_length]; exact hlt)]
    rw [insertOpsFrom_get?, hk]
    rfl
  · rw [format_template_to_doc_eq data, List.countP_append,
      insertOpsFrom_countP_style]
    rfl
  · unfold titleBlockText
    rw [String.length_append, String.length_append, String.length_append]
    have h2 : ("\n\n" : String).length = 2 := rfl
    omega

/-- C7, witness: the first emitted request of the default mapping is the
title insert at index 1. -/
theorem c7_witness :
    (format_template_to_doc []).get? 0
      = some (DocRequest.insertText 1 (titleBlockText [])) := by
  have h := (c7_format_template_requests []).2.2.1 0 (titleBlockText []) rfl
  simpa using h

/-- C9: whenever `create_document_from_template` returns a handle, the
handle's url is the fixed prefix followed by the handle's id and `/edit` —
in particular the url contains the returned id. -/
theorem c9_handle_url_contains_id (serviceReady authOk : Bool)
    (createResult : Option String) (updateOk : Bool)
    (title : String) (templateData : SMap) (handle : DocHandle)
    (h : create_document_from_template serviceReady authOk createResult
        updateOk title templateData = some handle) :
    handle.url
      = "https://docs.google.com/document/d/" ++ handle.id ++ "/edit" := by
  unfold create_document_from_template at h
  by_cases h1 : (!serviceReady && !authOk) = true
  · rw [if_pos h1] at h
    exact absurd h (by simp)
  · rw [if_neg h1] at h
    cases createResult with
    | none => simp at h
    | some docId =>
      simp only [] at h
      by_cases h2 : docId = ""
      · rw [if_pos h2] at h
        simp at h
      · rw [if_neg h2] at h
        by_cases h3 : (!updateOk) = true
        · rw [if_pos h3] at h
          simp at h
        · rw [if_neg h3] at h
          have hh := Option.some.inj h
          rw [← hh]
          rfl

/-- C9, witness: the spec's concrete scenario — publishing `"My Spec"` with
the default mapping and a working credential yields a handle whose url
embeds its id. -/
theorem c9_witness :
    (⟨"abc", get_document_link "abc"⟩ : DocHandle).url
      = "https://docs.google.com/document/d/"
        ++ (⟨"abc", get_document_link "abc"⟩ : DocHandle).id ++ "/edit" :=
  c9_handle_url_contains_id true true (some "abc") true "My Spec"
    default_template_data ⟨"abc", get_document_link "abc"⟩ rfl

end GDD

